import Mathlib

/-!
Shallow embedding of the distributed-coordination core of the
pathway-email-bot service, together with proofs of the specified
properties.

Embedded components (file and function names match the source):

* `src/service/main.py` — `_check_rate_limit` and its two policies:
  the per-IP sliding window over a `deque(maxlen=5)` ring buffer and the
  per-email cooldown map.  Timestamps (`time.monotonic()`) are modelled
  as rationals; the per-key maps as functions from keys to values, with
  a missing IP key meaning an empty ring (the code creates an empty
  deque on first sight of a key).  Python truthiness of the stored float
  (`if last and ...`) is modelled explicitly: a stored `0.0` is falsy.

* `src/service/gmail_client.py` — `ensure_watch`,
  `_try_claim_watch_renewal` and the pure decision function
  `check_and_claim_watch`.  A Firestore document is modelled as a record
  of optional fields; an absent document is the all-`none` record, which
  the code treats identically (`snapshot.to_dict() if snapshot.exists
  else {}` followed by `.get` on each field).  The Gmail `watch()` call
  is an external action modelled by a boolean success flag; the `except`
  around it means `ensure_watch` always returns normally, so the
  embedding is a total function.  Durations are in seconds.

* `src/service/firestore_client.py` — `claim_attempt_for_grading` and
  `update_attempt_graded`.  Firestore `update()` on a missing document
  raises NotFound and `DocumentSnapshot.get` on a missing field raises
  KeyError, so `update_attempt_graded` is embedded as `Except`.
-/

namespace PebService

/-! ## Rate limiter (`src/service/main.py`, lines 462–510) -/

/-- Constant `_EMAIL_COOLDOWN_SECS = 60` — one magic link per email per 60 s. -/
def EMAIL_COOLDOWN_SECS : ℚ := 60

/-- Constant `_IP_MAX_RPS = 5` — capacity of the per-IP ring buffer. -/
def IP_MAX_RPS : ℕ := 5

/-- Constant `_IP_WINDOW_SECS = 1.0` — sliding window for IP rate limiting. -/
def IP_WINDOW_SECS : ℚ := 1

/-- Appending to a `deque(maxlen=5)`: the new element goes to the back and,
when the deque is at capacity, the oldest (front) element is evicted.  The
head of the list is `ring[0]`, the oldest entry. -/
def ringAppend (ring : List ℚ) (now : ℚ) : List ℚ :=
  let r := ring ++ [now]
  r.drop (r.length - IP_MAX_RPS)

/-- Per-IP part of `_check_rate_limit` (lines 492–499): `ring.append(now)`
always happens first (the comment in the source reads "auto-evicts oldest if
full; always counted"), then the request is rejected when
`len(ring) >= _IP_MAX_RPS and (now - ring[0]) < _IP_WINDOW_SECS`.
Returns the updated ring and the allowed flag (`true` = not rejected). -/
def checkSlidingWindow (ring : List ℚ) (now : ℚ) : List ℚ × Bool :=
  let r := ringAppend ring now
  (r, !(decide (IP_MAX_RPS ≤ r.length) && decide (now - r.headI < IP_WINDOW_SECS)))

/-- Per-email part of `_check_rate_limit` (lines 502–508):
`last = _email_last_sent.get(email)`; the request is rejected when
`last and (now - last) < _EMAIL_COOLDOWN_SECS` (note the Python truthiness:
a stored `0.0` is falsy and never blocks); otherwise
`_email_last_sent[email] = now` is recorded.  Returns the new stored value
for the key and the allowed flag. -/
def checkCooldown (last : Option ℚ) (now : ℚ) : Option ℚ × Bool :=
  match last with
  | some t => if t ≠ 0 ∧ now - t < EMAIL_COOLDOWN_SECS then (some t, false) else (some now, true)
  | none => (some now, true)

/-- In-process rate-limit state: `_email_last_sent : dict[str, float]` and
`_ip_request_log : dict[str, deque[float]]`.  A key missing from
`_ip_request_log` is an empty ring (the code inserts an empty deque on first
use of a key). -/
structure RateState where
  emailLast : String → Option ℚ
  ipLog : String → List ℚ

/-- Outcome of a rejected `_check_rate_limit` call: which branch produced the
error message.  `cooldownWait` carries `int(_EMAIL_COOLDOWN_SECS - (now - last))`. -/
inductive RateLimitError where
  | tooManyRequests : RateLimitError
  | cooldownWait : ℤ → RateLimitError
deriving DecidableEq

/-- Function `_check_rate_limit(email, client_ip)` (lines 485–510): the per-IP
ring is appended to unconditionally, then the window check runs; only when it
passes does the per-email cooldown check run, and only when both pass is the
email timestamp recorded.  Returns the updated state and `none` for OK or
`some e` for a rejection. -/
def checkRateLimit (s : RateState) (email ip : String) (now : ℚ) :
    RateState × Option RateLimitError :=
  let r := checkSlidingWindow (s.ipLog ip) now
  let s1 : RateState := ⟨s.emailLast, fun k => if k = ip then r.1 else s.ipLog k⟩
  if r.2 = false then
    (s1, some .tooManyRequests)
  else
    let c := checkCooldown (s1.emailLast email) now
    if c.2 = true then
      (⟨fun k => if k = email then c.1 else s1.emailLast k, s1.ipLog⟩, none)
    else
      (s1, some (.cooldownWait
        (match s1.emailLast email with
         | some t => ⌊EMAIL_COOLDOWN_SECS - (now - t)⌋
         | none => 0)))

/-- Sequential calls of the per-IP sliding-window check for one key, returning
the final ring and the list of allowed flags. -/
def runSlidingWindow (ring : List ℚ) (ts : List ℚ) : List ℚ × List Bool :=
  match ts with
  | [] => (ring, [])
  | t :: rest =>
    let r := checkSlidingWindow ring t
    let tail := runSlidingWindow r.1 rest
    (tail.1, r.2 :: tail.2)

example : (runSlidingWindow [] [10, 101/10, 102/10, 103/10, 104/10]).2 =
    [true, true, true, true, false] := by
  norm_num [runSlidingWindow, checkSlidingWindow, ringAppend, IP_MAX_RPS, IP_WINDOW_SECS]

example : checkCooldown (some 10) 10 = (some 10, false) := by
  norm_num [checkCooldown, EMAIL_COOLDOWN_SECS]

/-! ## Gmail watch lease (`src/service/gmail_client.py`, lines 216–335) -/

/-- Constant `_WATCH_RENEW_BUFFER = timedelta(hours=24)`, in seconds. -/
def WATCH_RENEW_BUFFER : ℚ := 86400

/-- Constant `_WATCH_CLAIM_TIMEOUT = timedelta(seconds=60)`, in seconds. -/
def WATCH_CLAIM_TIMEOUT : ℚ := 60

/-- Constant `_WATCH_DURATION = timedelta(days=7)`, in seconds. -/
def WATCH_DURATION : ℚ := 604800

/-- The `system/watch_status` lease document.  Each field is optional:
`data.get(...)` yields `None` for a missing field, and an absent document is
read as the empty dict, i.e. the all-`none` record. -/
structure LeaseRecord where
  status : Option String
  claimed_at : Option ℚ
  expires_at : Option ℚ
  completed_at : Option ℚ
deriving DecidableEq

/-- The absent lease document (`status=absent` in the design document):
`snapshot.exists` is false and every `get` returns `None`. -/
def absentLease : LeaseRecord := ⟨none, none, none, none⟩

/-- Case 1 guard of `check_and_claim_watch`: `status == "completed" and
expires_at and expires_at > now + _WATCH_RENEW_BUFFER` (a datetime value is
always truthy, so `expires_at and` just tests presence). -/
def leaseFresh (data : LeaseRecord) (now : ℚ) : Bool :=
  decide (data.status = some "completed") &&
    (match data.expires_at with
     | some e => decide (now + WATCH_RENEW_BUFFER < e)
     | none => false)

/-- Case 2 guard of `check_and_claim_watch`: `status == "renewing" and
claimed_at and (now - claimed_at) < _WATCH_CLAIM_TIMEOUT`. -/
def claimActive (data : LeaseRecord) (now : ℚ) : Bool :=
  decide (data.status = some "renewing") &&
    (match data.claimed_at with
     | some c => decide (now - c < WATCH_CLAIM_TIMEOUT)
     | none => false)

/-- Pure decision function `check_and_claim_watch(data, now)` (lines 301–334):
skip when the watch is fresh and confirmed (case 1), skip when another
instance claimed renewal less than 60 s ago (case 2), otherwise claim
(case 3: expired, never set, or claimer timed out). -/
def check_and_claim_watch (data : LeaseRecord) (now : ℚ) : Bool :=
  if leaseFresh data now then false
  else if claimActive data now then false
  else true

/-- Transactional claim `_try_claim_watch_renewal` (lines 283–298): read the
document, decide via `check_and_claim_watch`, and when claiming replace the
document (`transaction.set`, no merge, so `completed_at` disappears) with
`status="renewing"`, `claimed_at=now` and the previously read `expires_at`.
Returns the document after the transaction and the decision. -/
def try_claim_watch_renewal (data : LeaseRecord) (now : ℚ) : LeaseRecord × Bool :=
  if check_and_claim_watch data now then
    (⟨some "renewing", some now, data.expires_at, none⟩, true)
  else
    (data, false)

/-- Fast-path guard of `ensure_watch` (line 238): `_watch_expires_at and
_watch_expires_at > now + _WATCH_RENEW_BUFFER` on the in-memory cache. -/
def watchCacheFresh (cache : Option ℚ) (now : ℚ) : Bool :=
  match cache with
  | some e => decide (now + WATCH_RENEW_BUFFER < e)
  | none => false

/-- Function `ensure_watch` (lines 225–280) for one instance whose in-memory
cache is `cache`, against lease document `doc`, at time `now`; `watchOk` tells
whether the external Gmail `watch()` call would succeed.  The surrounding
`except` swallows a `watch()` failure, so the function always returns
normally: the result is `(new cache, new document, calledWatch)`, where
`calledWatch` records whether phase 2 (the external renewal action) was
reached.  On the losing path the instance re-reads the document and caches its
`expires_at` when present; on the winning path with `watchOk` the phase-3
`doc_ref.update` merges `status="completed"`, the new `expires_at` and
`completed_at=now` into the claimed document. -/
def ensure_watch (cache : Option ℚ) (doc : LeaseRecord) (now : ℚ) (watchOk : Bool) :
    Option ℚ × LeaseRecord × Bool :=
  if watchCacheFresh cache now then
    (cache, doc, false)
  else
    let r := try_claim_watch_renewal doc now
    if r.2 then
      if watchOk then
        (some (now + WATCH_DURATION),
         ⟨some "completed", r.1.claimed_at, some (now + WATCH_DURATION), some now⟩,
         true)
      else
        (cache, r.1, true)
    else
      (match r.1.expires_at with
       | some e => some e
       | none => cache,
       r.1, false)

/-- Serialized execution of a sequence of `ensure_watch` calls by distinct
fresh instances (each starts with an empty in-memory cache), under the store's
per-document serialized transaction semantics.  Each call is a pair of its
transaction time and the success flag of its would-be `watch()` call.
Returns the final document and the list of `calledWatch` flags. -/
def runEnsureSeq (doc : LeaseRecord) (calls : List (ℚ × Bool)) :
    LeaseRecord × List Bool :=
  match calls with
  | [] => (doc, [])
  | (t, ok) :: rest =>
    let r := ensure_watch none doc t ok
    let tail := runEnsureSeq r.2.1 rest
    (tail.1, r.2.2 :: tail.2)

example : check_and_claim_watch absentLease 100 = true := by
  norm_num [check_and_claim_watch, leaseFresh, claimActive, absentLease]

example : (runEnsureSeq absentLease [(100, true), (100, true), (130, false)]).2 =
    [true, false, false] := by
  norm_num [runEnsureSeq, ensure_watch, try_claim_watch_renewal, check_and_claim_watch,
    leaseFresh, claimActive, absentLease, watchCacheFresh,
    WATCH_RENEW_BUFFER, WATCH_CLAIM_TIMEOUT, WATCH_DURATION]

/-! ## Attempt claim and grading (`src/service/firestore_client.py`) -/

/-- A Firestore field that the code reads through `DocumentSnapshot.get`:
it can be missing from the document (`get` raises KeyError), explicitly
`None`, or a string. -/
inductive FieldVal where
  | missing : FieldVal
  | null : FieldVal
  | strv : String → FieldVal
deriving DecidableEq

/-- The `users/{email}` document fields touched by this module. -/
structure UserDoc where
  activeScenarioId : FieldVal
  activeAttemptId : FieldVal
deriving DecidableEq

/-- One entry of the `rubricScores` list (dicts with
name/score/maxScore/justification, per the docstring of
`update_attempt_graded`). -/
structure RubricEntry where
  name : String
  score : ℤ
  maxScore : ℤ
  justification : String
deriving DecidableEq

/-- The `users/{email}/attempts/{attempt_id}` document.  Optional fields model
`dict.get`: a field a write never set is `none`. -/
structure AttemptDoc where
  scenarioId : Option String
  status : Option String
  startedAt : Option ℚ
  score : Option ℤ
  maxScore : Option ℤ
  feedback : Option String
  gradedAt : Option ℚ
  rubricScores : Option (List RubricEntry)
  revisionExample : Option String
deriving DecidableEq

/-- Function `claim_attempt_for_grading` (lines 167–187): inside a
transaction, read the attempt; if it exists with `status == 'pending'`,
update `status` to `'grading'` and return true, else return false without
writing.  Input `none` is a non-existent document.  Returns the document
after the transaction and the claim result.  (The design document calls the
`'grading'` state "claimed" and the `'graded'` state "completed".) -/
def claim_attempt_for_grading (doc : Option AttemptDoc) : Option AttemptDoc × Bool :=
  match doc with
  | some d =>
    if d.status = some "pending" then
      (some { d with status := some "grading" }, true)
    else
      (doc, false)
  | none => (doc, false)

/-- The `update_data` dict of `update_attempt_graded` (lines 115–126) applied
to an attempt document: `status='graded'`, the result payload, `gradedAt`
(the server timestamp, modelled by `ts`); `rubricScores` only when the
argument is not `None`, `revisionExample` only when non-empty (fields absent
from `update_data` are untouched by Firestore `update`). -/
def applyGradeUpdate (d : AttemptDoc) (score max_score : ℤ) (feedback : String)
    (rubric_scores : Option (List RubricEntry)) (revision_example : String)
    (ts : ℚ) : AttemptDoc :=
  { d with
    status := some "graded"
    score := some score
    maxScore := some max_score
    feedback := some feedback
    gradedAt := some ts
    rubricScores :=
      match rubric_scores with
      | some r => some r
      | none => d.rubricScores
    revisionExample :=
      if revision_example ≠ "" then some revision_example else d.revisionExample }

/-- Function `update_attempt_graded` (lines 91–135): unconditionally
`update` the attempt with the `update_data` built by `applyGradeUpdate`,
then read the `users/{email}` document and, when it exists and its
`activeAttemptId` equals this attempt, clear `activeScenarioId` and
`activeAttemptId` to `None`.  Firestore `update()` on a missing document
raises NotFound, and `DocumentSnapshot.get` on a missing field raises
KeyError, hence the `Except`.  Returns the updated attempt and user
documents. -/
def update_attempt_graded (attempt : Option AttemptDoc) (user : Option UserDoc)
    (attempt_id : String) (score max_score : ℤ) (feedback : String)
    (rubric_scores : Option (List RubricEntry)) (revision_example : String)
    (ts : ℚ) : Except String (AttemptDoc × Option UserDoc) :=
  match attempt with
  | none => .error "NotFound"
  | some d =>
    let d1 : AttemptDoc :=
      applyGradeUpdate d score max_score feedback rubric_scores revision_example ts
    match user with
    | none => .ok (d1, none)
    | some u =>
      match u.activeAttemptId with
      | .missing => .error "KeyError"
      | .null => .ok (d1, some u)
      | .strv s =>
        if s = attempt_id then
          .ok (d1, some { u with activeScenarioId := .null, activeAttemptId := .null })
        else
          .ok (d1, some u)

/-! ## Theorems -/

/-- C5: crash self-healing boundary of the pure decision function.  For a
LeaseRecord with `status=renewing`, `check_and_claim_watch` returns true when
`claimedAt = now - (claimTimeout + 1s)` and false when
`claimedAt = now - (claimTimeout - 1s)`, with `claimTimeout = 60s`,
whatever the other fields hold. -/
theorem check_and_claim_crash_selfheal_boundary (now : ℚ) (e c : Option ℚ) :
    check_and_claim_watch ⟨some "renewing", some (now - (WATCH_CLAIM_TIMEOUT + 1)), e, c⟩ now
      = true ∧
    check_and_claim_watch ⟨some "renewing", some (now - (WATCH_CLAIM_TIMEOUT - 1)), e, c⟩ now
      = false := by
  constructor <;>
    simp [check_and_claim_watch, leaseFresh, claimActive, WATCH_CLAIM_TIMEOUT]

/-- C6: freshness short-circuit boundary.  For a LeaseRecord with
`status=completed`, `check_and_claim_watch` returns false when
`expiresAt = now + buffer + 1s`, true when `expiresAt = now + buffer - 1s`,
and true at the boundary `expiresAt = now + buffer` itself (the comparison
`expires_at > now + buffer` is strict), with `buffer = 24h`, whatever the
other fields hold. -/
theorem check_and_claim_freshness_boundary (now : ℚ) (ca c : Option ℚ) :
    check_and_claim_watch ⟨some "completed", ca, some (now + WATCH_RENEW_BUFFER + 1), c⟩ now
      = false ∧
    check_and_claim_watch ⟨some "completed", ca, some (now + WATCH_RENEW_BUFFER - 1), c⟩ now
      = true ∧
    check_and_claim_watch ⟨some "completed", ca, some (now + WATCH_RENEW_BUFFER), c⟩ now
      = true := by
  refine ⟨?_, ?_, ?_⟩ <;>
    simp [check_and_claim_watch, leaseFresh, claimActive, WATCH_RENEW_BUFFER]

/-- C8: when the claim transaction decides to claim, its write sets
`status=renewing` and `claimedAt=now` and leaves `expiresAt` exactly as read
in that transaction; nothing else survives the `set` (the write replaces the
document, so `completedAt` is cleared, never invented). -/
theorem try_claim_write_preserves_expires (data : LeaseRecord) (now : ℚ)
    (h : check_and_claim_watch data now = true) :
    try_claim_watch_renewal data now
      = (⟨some "renewing", some now, data.expires_at, none⟩, true) := by
  simp [try_claim_watch_renewal, h]

/-- Witness for C8 at a concrete input: the absent lease is claimable at
time 100 and the claim write is as stated. -/
theorem try_claim_write_preserves_expires_witness :
    try_claim_watch_renewal absentLease 100
      = (⟨some "renewing", some 100, none, none⟩, true) :=
  try_claim_write_preserves_expires absentLease 100
    (by norm_num [check_and_claim_watch, leaseFresh, claimActive, absentLease])

/-- C7: if the external `watch()` call fails after this worker won the claim,
`ensure_watch` returns normally (the exception is caught), performs no
further store write, and leaves the lease document exactly as the claim
transaction wrote it — `status=renewing` with `claimedAt=now` — so the claim
self-expires after the 60 s claim timeout; the in-memory cache is untouched
and `calledWatch` records that the renewal action was reached. -/
theorem ensure_watch_swallows_renew_failure (cache : Option ℚ) (doc : LeaseRecord)
    (now : ℚ)
    (hfast : watchCacheFresh cache now = false)
    (hclaim : check_and_claim_watch doc now = true) :
    ensure_watch cache doc now false
      = (cache, ⟨some "renewing", some now, doc.expires_at, none⟩, true) := by
  simp [ensure_watch, hfast, try_claim_watch_renewal, hclaim]

/-- Witness for C7: an instance with a cold cache, against the absent lease
document, at time 100. -/
theorem ensure_watch_swallows_renew_failure_witness :
    ensure_watch none absentLease 100 false
      = (none, ⟨some "renewing", some 100, none, none⟩, true) :=
  ensure_watch_swallows_renew_failure none absentLease 100 rfl
    (by norm_num [check_and_claim_watch, leaseFresh, claimActive, absentLease])

/-- C3: `claim_attempt_for_grading` returns true iff the attempt exists with
`status=pending`, in which case the same transaction writes the claimed
(`'grading'`) status; otherwise it returns false and writes nothing; hence on
a pending record two sequentialized calls yield exactly one true then one
false, and a call on an already-claimed (`'grading'`) or completed
(`'graded'`) record always returns false. -/
theorem claim_attempt_spec :
    (∀ doc : Option AttemptDoc,
        (claim_attempt_for_grading doc).2 = true ↔
          ∃ d, doc = some d ∧ d.status = some "pending") ∧
    (∀ d : AttemptDoc, d.status = some "pending" →
        claim_attempt_for_grading (some d)
          = (some { d with status := some "grading" }, true)) ∧
    (∀ doc : Option AttemptDoc, (claim_attempt_for_grading doc).2 = false →
        (claim_attempt_for_grading doc).1 = doc) ∧
    (∀ d : AttemptDoc, d.status = some "pending" →
        (claim_attempt_for_grading (some d)).2 = true ∧
        (claim_attempt_for_grading ((claim_attempt_for_grading (some d)).1)).2 = false) ∧
    (∀ d : AttemptDoc, d.status = some "grading" ∨ d.status = some "graded" →
        (claim_attempt_for_grading (some d)).2 = false) := by
  refine ⟨?_, ?_, ?_, ?_, ?_⟩
  · intro doc
    cases doc with
    | none => simp [claim_attempt_for_grading]
    | some d =>
      by_cases h : d.status = some "pending" <;>
        simp [claim_attempt_for_grading, h]
  · intro d h
    simp [claim_attempt_for_grading, h]
  · intro doc h
    cases doc with
    | none => rfl
    | some d =>
      by_cases hs : d.status = some "pending"
      · simp [claim_attempt_for_grading, hs] at h
      · simp [claim_attempt_for_grading, hs]
  · intro d h
    simp [claim_attempt_for_grading, h]
  · intro d h
    rcases h with h | h <;> simp [claim_attempt_for_grading, h]

/-- Witness for C3: a freshly created pending attempt is claimed by the first
call and the claim result of the second sequential call is false. -/
theorem claim_attempt_spec_witness :
    (claim_attempt_for_grading
        (some ⟨some "s1", some "pending", some 5, none, none, none, none, none, none⟩)).2
      = true ∧
    (claim_attempt_for_grading
        ((claim_attempt_for_grading
          (some ⟨some "s1", some "pending", some 5, none, none, none, none, none, none⟩)).1)).2
      = false :=
  claim_attempt_spec.2.2.2.1
    ⟨some "s1", some "pending", some 5, none, none, none, none, none, none⟩ rfl

/-- C9: the per-email cooldown check rejects without recording anything when
the previously recorded allowed call is within 60 s of now, and otherwise
records `now` and allows; concretely a fresh key is allowed, an immediate
second call is rejected, and a call 61 s later is allowed again.  (The
hypothesis `0 < t` reflects that a recorded `time.monotonic()` value is
positive: the source tests the stored float for truthiness, so a stored
`0.0` would never block.) -/
theorem checkCooldown_spec :
    (∀ t now : ℚ, 0 < t → now - t < EMAIL_COOLDOWN_SECS →
        checkCooldown (some t) now = (some t, false)) ∧
    (∀ t now : ℚ, EMAIL_COOLDOWN_SECS ≤ now - t →
        checkCooldown (some t) now = (some now, true)) ∧
    (∀ now : ℚ, checkCooldown none now = (some now, true)) ∧
    checkCooldown none 10 = (some 10, true) ∧
    checkCooldown (some 10) 10 = (some 10, false) ∧
    checkCooldown (some 10) 71 = (some 71, true) := by
  refine ⟨?_, ?_, ?_, ?_, ?_, ?_⟩
  · intro t now ht hlt
    simp only [checkCooldown]
    rw [if_pos ⟨ht.ne', hlt⟩]
  · intro t now hge
    simp only [checkCooldown]
    rw [if_neg (by push_neg; intro _; linarith)]
  · intro now
    rfl
  · rfl
  · norm_num [checkCooldown, EMAIL_COOLDOWN_SECS]
  · norm_num [checkCooldown, EMAIL_COOLDOWN_SECS]

/-- Witness for C9: the implication parts of the cooldown specification at
concrete inputs. -/
theorem checkCooldown_spec_witness :
    checkCooldown (some 10) 30 = (some 10, false) ∧
    checkCooldown (some 10) 70 = (some 70, true) :=
  ⟨checkCooldown_spec.1 10 30 (by norm_num) (by norm_num [EMAIL_COOLDOWN_SECS]),
   checkCooldown_spec.2.1 10 70 (by norm_num [EMAIL_COOLDOWN_SECS])⟩

/-- C4: `update_attempt_graded` is idempotent on an existing attempt: the
first call writes the graded status and result payload, the second call with
the same result succeeds (no error) and leaves the very same document except
for the fresh server timestamp `gradedAt`; both results carry
`status='graded'`.  The hypothesis excludes a malformed `users/{email}`
document that lacks the `activeAttemptId` field, on which even the first
call would raise KeyError (after `create_attempt` the field is always
present). -/
theorem update_attempt_graded_idempotent (d : AttemptDoc) (user : Option UserDoc)
    (aid : String) (score max_score : ℤ) (fb : String)
    (rs : Option (List RubricEntry)) (rev : String) (ts1 ts2 : ℚ)
    (huser : ∀ u, user = some u → u.activeAttemptId ≠ FieldVal.missing) :
    ∃ u1 u2,
      update_attempt_graded (some d) user aid score max_score fb rs rev ts1
        = .ok (applyGradeUpdate d score max_score fb rs rev ts1, u1) ∧
      update_attempt_graded (some (applyGradeUpdate d score max_score fb rs rev ts1))
          u1 aid score max_score fb rs rev ts2
        = .ok ({ applyGradeUpdate d score max_score fb rs rev ts1 with
                  gradedAt := some ts2 }, u2) ∧
      (applyGradeUpdate d score max_score fb rs rev ts1).status = some "graded" ∧
      ({ applyGradeUpdate d score max_score fb rs rev ts1 with
          gradedAt := some ts2 }).status = some "graded" := by
  have hdoc :
      applyGradeUpdate (applyGradeUpdate d score max_score fb rs rev ts1)
          score max_score fb rs rev ts2
        = { applyGradeUpdate d score max_score fb rs rev ts1 with
            gradedAt := some ts2 } := by
    cases rs <;> by_cases hrev : rev = "" <;> simp [applyGradeUpdate, hrev]
  cases user with
  | none =>
    exact ⟨none, none, rfl, by simp [update_attempt_graded, hdoc],
      by simp [applyGradeUpdate], by simp [applyGradeUpdate]⟩
  | some u =>
    cases hu : u.activeAttemptId with
    | missing => exact absurd hu (huser u rfl)
    | null =>
      refine ⟨some u, some u, ?_, ?_, by simp [applyGradeUpdate],
        by simp [applyGradeUpdate]⟩
      · simp [update_attempt_graded, hu]
      · simp [update_attempt_graded, hu, hdoc]
    | strv s =>
      by_cases hs : s = aid
      · refine ⟨some { u with activeScenarioId := .null, activeAttemptId := .null },
          some { u with activeScenarioId := .null, activeAttemptId := .null },
          ?_, ?_, by simp [applyGradeUpdate], by simp [applyGradeUpdate]⟩
        · simp [update_attempt_graded, hu, hs]
        · simp [update_attempt_graded, hdoc]
      · refine ⟨some u, some u, ?_, ?_, by simp [applyGradeUpdate],
          by simp [applyGradeUpdate]⟩
        · simp [update_attempt_graded, hu, hs]
        · simp [update_attempt_graded, hu, hs, hdoc]

/-- Witness for C4: grading a pending attempt twice with the same result at
server timestamps 50 and 60, while the user document points at it. -/
theorem update_attempt_graded_idempotent_witness :
    ∃ u1 u2,
      update_attempt_graded
          (some ⟨some "s1", some "grading", some 5, none, none, none, none, none, none⟩)
          (some ⟨FieldVal.strv "a1", FieldVal.strv "a1"⟩)
          "a1" 7 10 "good" none "" 50
        = .ok (applyGradeUpdate
            ⟨some "s1", some "grading", some 5, none, none, none, none, none, none⟩
            7 10 "good" none "" 50, u1) ∧
      update_attempt_graded
          (some (applyGradeUpdate
            ⟨some "s1", some "grading", some 5, none, none, none, none, none, none⟩
            7 10 "good" none "" 50))
          u1 "a1" 7 10 "good" none "" 60
        = .ok ({ applyGradeUpdate
            ⟨some "s1", some "grading", some 5, none, none, none, none, none, none⟩
            7 10 "good" none "" 50 with gradedAt := some 60 }, u2) ∧
      (applyGradeUpdate
        ⟨some "s1", some "grading", some 5, none, none, none, none, none, none⟩
        7 10 "good" none "" 50).status = some "graded" ∧
      ({ applyGradeUpdate
          ⟨some "s1", some "grading", some 5, none, none, none, none, none, none⟩
          7 10 "good" none "" 50 with gradedAt := some 60 }).status = some "graded" :=
  update_attempt_graded_idempotent
    ⟨some "s1", some "grading", some 5, none, none, none, none, none, none⟩
    (some ⟨FieldVal.strv "a1", FieldVal.strv "a1"⟩)
    "a1" 7 10 "good" none "" 50 60
    (by intro u hu; cases hu; simp)

/-- C2 counterexample: for a fresh key with `maxRequests=5, window=1s`, five
calls in rapid succession (at 10.0, 10.1, 10.2, 10.3, 10.4 s) do NOT all
return allowed — the fifth already returns rejected, because the source
appends the timestamp before the full-buffer check, so the buffer reaches
capacity 5 on the fifth call itself. -/
theorem sliding_window_five_calls_counterexample :
    (runSlidingWindow [] [10, 101/10, 102/10, 103/10, 104/10]).2
      = [true, true, true, true, false] ∧
    ¬ (runSlidingWindow [] [10, 101/10, 102/10, 103/10, 104/10]).2
      = [true, true, true, true, true] := by
  constructor <;>
    norm_num [runSlidingWindow, checkSlidingWindow, ringAppend, IP_MAX_RPS, IP_WINDOW_SECS]

/-- C2 amended: the per-IP sliding-window check always records the timestamp
first (evicting the oldest entry when the buffer is at capacity), and then
rejects the request iff the buffer is full and its oldest entry is still
within the window of now; hence for a fresh key only four calls in rapid
succession are allowed, the fifth (and sixth) immediate call is rejected,
and a call after the window elapses is allowed again. -/
theorem sliding_window_amended :
    (∀ (ring : List ℚ) (now : ℚ),
        (checkSlidingWindow ring now).1 = ringAppend ring now) ∧
    (∀ (ring : List ℚ) (now : ℚ),
        (checkSlidingWindow ring now).2 = false ↔
          IP_MAX_RPS ≤ (ringAppend ring now).length ∧
          now - (ringAppend ring now).headI < IP_WINDOW_SECS) ∧
    (runSlidingWindow [] [10, 101/10, 102/10, 103/10, 104/10, 105/10, 23/2]).2
      = [true, true, true, true, false, false, true] := by
  refine ⟨fun ring now => rfl, ?_, ?_⟩
  · intro ring now
    simp [checkSlidingWindow]
  · norm_num [runSlidingWindow, checkSlidingWindow, ringAppend, IP_MAX_RPS, IP_WINDOW_SECS]

/-- C10: every `_check_rate_limit` call appends the current timestamp to the
caller's IP ring buffer (evicting the oldest entry at capacity) before the
window check is evaluated, also when the call ends up rejected; concretely, a
rejected call at 10.5 s against a full recent ring still lands in the ring
seen by subsequent decisions. -/
theorem check_rate_limit_always_counts :
    (∀ (s : RateState) (email ip : String) (now : ℚ),
        ((checkRateLimit s email ip now).1).ipLog ip = ringAppend (s.ipLog ip) now) ∧
    (checkRateLimit ⟨fun _ => none, fun _ => [10, 101/10, 102/10, 103/10, 104/10]⟩
        "a@example.com" "1.2.3.4" (21/2)).2 = some .tooManyRequests ∧
    ((checkRateLimit ⟨fun _ => none, fun _ => [10, 101/10, 102/10, 103/10, 104/10]⟩
        "a@example.com" "1.2.3.4" (21/2)).1).ipLog "1.2.3.4"
      = [101/10, 102/10, 103/10, 104/10, 21/2] := by
  refine ⟨?_, ?_, ?_⟩
  · intro s email ip now
    simp only [checkRateLimit, checkSlidingWindow]
    split
    · simp
    · split <;> simp
  · norm_num [checkRateLimit, checkSlidingWindow, ringAppend, IP_MAX_RPS, IP_WINDOW_SECS]
  · norm_num [checkRateLimit, checkSlidingWindow, ringAppend, IP_MAX_RPS, IP_WINDOW_SECS]

lemma ensure_watch_skip (doc : LeaseRecord) (t : ℚ) (ok : Bool)
    (h : check_and_claim_watch doc t = false) :
    (ensure_watch none doc t ok).2 = (doc, false) := by
  simp [ensure_watch, watchCacheFresh, try_claim_watch_renewal, h]

lemma runEnsureSeq_skip (calls : List (ℚ × Bool)) (doc : LeaseRecord)
    (h : ∀ p ∈ calls, check_and_claim_watch doc p.1 = false) :
    (runEnsureSeq doc calls).2 = List.replicate calls.length false := by
  induction calls with
  | nil => rfl
  | cons p rest ih =>
    obtain ⟨t, ok⟩ := p
    have h1 : check_and_claim_watch doc t = false := h (t, ok) (List.mem_cons_self _ _)
    have hE := ensure_watch_skip doc t ok h1
    simp only [runEnsureSeq, hE, List.length_cons, List.replicate_succ]
    exact congrArg _ (ih fun q hq => h q (List.mem_cons_of_mem _ hq))

lemma ensure_watch_first_on_absent (t1 : ℚ) (ok1 : Bool) :
    (ensure_watch none absentLease t1 ok1).2.2 = true ∧
    (ensure_watch none absentLease t1 ok1).2.1
      = (if ok1 then
          (⟨some "completed", some t1, some (t1 + WATCH_DURATION), some t1⟩ : LeaseRecord)
         else ⟨some "renewing", some t1, none, none⟩) := by
  cases ok1 <;>
    simp [ensure_watch, watchCacheFresh, try_claim_watch_renewal,
      check_and_claim_watch, leaseFresh, claimActive, absentLease]

lemma check_blocked_after_first (t1 t : ℚ) (ok1 : Bool)
    (ht : t - t1 < WATCH_CLAIM_TIMEOUT) :
    check_and_claim_watch ((ensure_watch none absentLease t1 ok1).2.1) t = false := by
  rw [(ensure_watch_first_on_absent t1 ok1).2]
  cases ok1 with
  | false =>
    have ht' : t - t1 < 60 := by rw [WATCH_CLAIM_TIMEOUT] at ht; exact ht
    simp [check_and_claim_watch, leaseFresh, claimActive, WATCH_CLAIM_TIMEOUT, ht']
  | true =>
    have ht' : t - t1 < 60 := by rw [WATCH_CLAIM_TIMEOUT] at ht; exact ht
    have hfresh : t + WATCH_RENEW_BUFFER < t1 + WATCH_DURATION := by
      rw [WATCH_RENEW_BUFFER, WATCH_DURATION]; linarith
    simp [check_and_claim_watch, leaseFresh, claimActive, hfresh]

/-- C1: mutual exclusion of the watch renewal.  For any serialized sequence
of `ensure_watch` calls by fresh instances against the absent lease document,
whose transaction times all lie within the 60 s claim timeout of the first
call's time, exactly one call (the first to run) reaches the external
`watch()` renewal action; every other call skips it — whether the winner's
renewal succeeded or failed. -/
theorem ensure_watch_mutual_exclusion (t1 : ℚ) (ok1 : Bool) (rest : List (ℚ × Bool))
    (h : ∀ p ∈ rest, p.1 - t1 < WATCH_CLAIM_TIMEOUT) :
    ((runEnsureSeq absentLease ((t1, ok1) :: rest)).2.count true) = 1 := by
  have hblock : ∀ p ∈ rest,
      check_and_claim_watch ((ensure_watch none absentLease t1 ok1).2.1) p.1 = false :=
    fun p hp => check_blocked_after_first t1 p.1 ok1 (h p hp)
  have htail := runEnsureSeq_skip rest _ hblock
  simp only [runEnsureSeq, htail, (ensure_watch_first_on_absent t1 ok1).1]
  simp [List.count_cons, List.count_replicate]

/-- Witness for C1: three concurrent calls, at 100 s (twice) and 130 s, with
the winner's renewal succeeding; exactly one reaches the renewal action. -/
theorem ensure_watch_mutual_exclusion_witness :
    ((runEnsureSeq absentLease [(100, true), (100, true), (130, false)]).2.count true)
      = 1 :=
  ensure_watch_mutual_exclusion 100 true [(100, true), (130, false)]
    (by
      intro p hp
      simp only [List.mem_cons, List.not_mem_nil, or_false] at hp
      rcases hp with h | h <;> rw [h] <;> norm_num [WATCH_CLAIM_TIMEOUT])

end PebService
